import Mathlib

/-!
Verification of the cashstate financial aggregation engine.

This file gives a shallow embedding, in Lean 4, of the pure computational
core of the cashstate backend (budget resolution, spending aggregation,
budget summaries, balance snapshot roll-up, goal progress, rule based
categorization), translated from the Python sources under
src/backend/app, and proves or refutes the specification claims about it.

Modelling conventions:
- Python floats holding money are modelled as rationals.
- Python dicts are modelled as association lists with insertion order
  (a new key is appended at the end; updating an existing key keeps its
  position), matching CPython dict semantics.
- Python exceptions are modelled with Except; a function that can raise
  returns an Except value, and dict subscript access that can raise
  KeyError is modelled by a lookup returning Except.
- Python truthiness tests (if x: on strings, lists, optionals, numbers)
  are modelled by explicit emptiness or zero tests.
- Dates are modelled as (year, month, day) records; comparison of ISO
  date strings is modelled by lexicographic comparison of the fields,
  which agrees with string comparison for valid dates.
-/

namespace Cashstate

/-- Rounding of a rational to 2 decimal places, modelling the Python
builtin round(x, 2) at the output boundary: the floor of x times 100
plus one half, divided by 100 (round half up). Tie breaking (Python
uses round half to even on floats) never arises in any statement
below. -/
def round2 (x : ℚ) : ℚ := (⌊x * 100 + 1 / 2⌋ : ℤ) / 100

/-- Rounding an integral value to 2 decimals is the identity. -/
theorem round2_intCast (n : ℤ) : round2 ((n : ℚ)) = (n : ℚ) := by
  rw [round2]
  have h : ((n : ℚ) * 100 + 1 / 2) = ((100 * n : ℤ) : ℚ) + 1 / 2 := by
    push_cast
    ring
  rw [h, Int.floor_int_add]
  norm_num

/-- Calendar date, standing for a Python datetime.date or an ISO
formatted date string YYYY-MM-DD. -/
structure Date where
  y : Int
  m : Int
  d : Int
deriving DecidableEq, Repr

/-- Lexicographic order on dates; for valid dates this coincides with
comparison of ISO date strings, which is how the Python code compares
and sorts date strings. -/
def Date.leb (a b : Date) : Bool :=
  if a.y ≠ b.y then a.y < b.y
  else if a.m ≠ b.m then a.m < b.m
  else a.d ≤ b.d

/-- Python exceptions relevant to the embedded code. -/
inductive PyErr where
  | valueError
  | keyError (key : String)
deriving DecidableEq, Repr

section AssocHelpers

variable {α : Type} {β : Type} [DecidableEq α]

/-- Lookup in an association list (Python dict get returning an option). -/
def alookup (m : List (α × β)) (k : α) : Option β :=
  match m with
  | [] => none
  | (a, b) :: t => if a = k then some b else alookup t k

/-- Lookup with a default (Python dict.get(k, dflt)). -/
def lookupD (m : List (α × β)) (k : α) (dflt : β) : β :=
  (alookup m k).getD dflt

/-- Update of a dict entry through a function, inserting f dflt when the
key is absent. Models the Python patterns m[k] = m.get(k, dflt) + x,
defaultdict accumulation, and plain overwriting assignment m[k] = v.
A fresh key is appended at the end, as in CPython dicts. -/
def updD (m : List (α × β)) (k : α) (f : β → β) (dflt : β) : List (α × β) :=
  match m with
  | [] => [(k, f dflt)]
  | (a, b) :: t => if a = k then (a, f b) :: t else (a, b) :: updD t k f dflt

@[simp] theorem alookup_nil (k : α) : alookup ([] : List (α × β)) k = none := rfl

theorem alookup_updD_self (m : List (α × β)) (k : α) (f : β → β) (d : β) :
    alookup (updD m k f d) k = some (f ((alookup m k).getD d)) := by
  induction m with
  | nil => simp [updD, alookup]
  | cons h t ih =>
    obtain ⟨a, b⟩ := h
    by_cases hak : a = k
    · subst hak; simp [updD, alookup]
    · simp [updD, alookup, hak, ih]

theorem alookup_updD_ne (m : List (α × β)) (k k' : α) (f : β → β) (d : β)
    (h : k' ≠ k) : alookup (updD m k f d) k' = alookup m k' := by
  induction m with
  | nil => simp [updD, alookup, Ne.symm h]
  | cons hd t ih =>
    obtain ⟨a, b⟩ := hd
    by_cases hak : a = k
    · subst hak
      simp [updD, alookup, Ne.symm h]
    · simp [updD, hak, alookup, ih]

theorem lookupD_updD_self (m : List (α × β)) (k : α) (f : β → β) (d : β) :
    lookupD (updD m k f d) k d = f (lookupD m k d) := by
  simp [lookupD, alookup_updD_self]

theorem lookupD_updD_ne (m : List (α × β)) (k k' : α) (f : β → β) (d d' : β)
    (h : k' ≠ k) : lookupD (updD m k f d) k' d' = lookupD m k' d' := by
  simp [lookupD, alookup_updD_ne m k k' f d h]

/-- Keys of an updated dict: the update key is added, nothing else. -/
theorem keys_updD (m : List (α × β)) (k : α) (f : β → β) (d : β) :
    ((updD m k f d).map Prod.fst) = if (alookup m k).isSome
      then m.map Prod.fst else m.map Prod.fst ++ [k] := by
  induction m with
  | nil => simp [updD, alookup]
  | cons hd t ih =>
    obtain ⟨a, b⟩ := hd
    by_cases hak : a = k
    · subst hak; simp [updD, alookup]
    · simp only [updD, if_neg hak, alookup, List.map_cons, ih]
      by_cases hs : (alookup t k).isSome <;> simp [hs, hak]

/-- Membership in an updated dict. -/
theorem mem_updD (m : List (α × β)) (k : α) (f : β → β) (d : β)
    (p : α × β) (hp : p ∈ updD m k f d) :
    p ∈ m ∨ (p.1 = k ∧ ∃ b, p.2 = f b) := by
  induction m with
  | nil =>
    have h1 : p = (k, f d) := by
      simpa [updD] using hp
    exact Or.inr ⟨by rw [h1], ⟨d, by rw [h1]⟩⟩
  | cons hd t ih =>
    obtain ⟨a, b⟩ := hd
    by_cases hak : a = k
    · subst hak
      have hu : updD ((a, b) :: t) a f d = (a, f b) :: t := by simp [updD]
      rw [hu] at hp
      rcases List.mem_cons.mp hp with hp | hp
      · exact Or.inr ⟨by rw [hp], ⟨b, by rw [hp]⟩⟩
      · exact Or.inl (List.mem_cons_of_mem _ hp)
    · have hu : updD ((a, b) :: t) k f d = (a, b) :: updD t k f d := by
        simp [updD, hak]
      rw [hu] at hp
      rcases List.mem_cons.mp hp with hp | hp
      · exact Or.inl (by rw [hp]; exact List.mem_cons_self _ _)
      · rcases ih hp with h | h
        · exact Or.inl (List.mem_cons_of_mem _ h)
        · exact Or.inr h

/-- For a dict with no duplicate keys, a member pair is determined by
lookup at its key. -/
theorem mem_alookup_of_nodup (m : List (α × β))
    (hn : (m.map Prod.fst).Nodup) (p : α × β) (hp : p ∈ m) :
    alookup m p.1 = some p.2 := by
  induction m with
  | nil => cases hp
  | cons hd t ih =>
    obtain ⟨a, b⟩ := hd
    simp only [List.map_cons, List.nodup_cons] at hn
    rcases List.mem_cons.mp hp with hp | hp
    · simp [hp, alookup]
    · have hne : a ≠ p.1 := by
        intro hc
        exact hn.1 (hc ▸ List.mem_map_of_mem Prod.fst hp)
      simp [alookup, hne, ih hn.2 hp]

/-- Updating preserves freedom from duplicate keys. -/
theorem nodup_keys_updD (m : List (α × β)) (k : α) (f : β → β) (d : β)
    (hn : (m.map Prod.fst).Nodup) : ((updD m k f d).map Prod.fst).Nodup := by
  rw [keys_updD]
  by_cases hs : (alookup m k).isSome
  · simpa [hs]
  · have hk : k ∉ m.map Prod.fst := by
      intro hc
      rcases List.mem_map.mp hc with ⟨p, hpm, hpk⟩
      have := mem_alookup_of_nodup m hn p hpm
      rw [hpk] at this
      simp [this] at hs
    simp only [hs, if_false]
    refine List.Nodup.append hn (List.nodup_singleton k) ?_
    intro a ha hmem
    rw [List.mem_singleton] at hmem
    exact hk (hmem ▸ ha)

end AssocHelpers

section SortBy

variable {α : Type}

/-- Stable insertion into a sorted list (helper for sortBy). -/
def insertLe (le : α → α → Bool) (x : α) : List α → List α
  | [] => [x]
  | y :: ys => if le x y then x :: y :: ys else y :: insertLe le x ys

/-- Stable sort by a boolean comparison, modelling the Python builtin
sorted. Only permutation facts about it are used below. -/
def sortBy (le : α → α → Bool) : List α → List α
  | [] => []
  | x :: xs => insertLe le x (sortBy le xs)

theorem insertLe_perm (le : α → α → Bool) (x : α) (l : List α) :
    List.Perm (insertLe le x l) (x :: l) := by
  induction l with
  | nil => rfl
  | cons y ys ih =>
    by_cases h : le x y
    · simp [insertLe, h]
    · simp only [insertLe, h, if_false]
      exact (ih.cons y).trans (List.Perm.swap x y ys)

theorem sortBy_perm (le : α → α → Bool) (l : List α) :
    List.Perm (sortBy le l) l := by
  induction l with
  | nil => rfl
  | cons x xs ih => exact (insertLe_perm le x (sortBy le xs)).trans (ih.cons x)

theorem mem_sortBy (le : α → α → Bool) (l : List α) (x : α) :
    x ∈ sortBy le l ↔ x ∈ l :=
  (sortBy_perm le l).mem_iff

end SortBy

/-- Sum form of a Python accumulation loop: total = total + f x over a
list equals the initial value plus the list sum of f. -/
theorem foldl_add_eq_sum {τ : Type} (f : τ → ℚ) (l : List τ) (init : ℚ) :
    l.foldl (fun acc t => acc + f t) init = init + (l.map f).sum := by
  induction l generalizing init with
  | nil => simp
  | cons h t ih => simp [ih, add_assoc]

/-- Accumulating contributions into a dict keyed by key t: the final
value at k is the initial value at k plus the sum of contributions of
the list elements whose key is k. Models both the dict.get(k, 0) + x
pattern and defaultdict(float) accumulation. -/
theorem lookupD_foldl_updD_add {τ : Type} {α : Type} [DecidableEq α]
    (key : τ → α) (amt : τ → ℚ) (l : List τ) (m : List (α × ℚ)) (k : α) :
    lookupD (l.foldl (fun m t => updD m (key t) (· + amt t) 0) m) k 0
      = lookupD m k 0 + ((l.filter (fun t => key t = k)).map amt).sum := by
  induction l generalizing m with
  | nil => simp
  | cons h t ih =>
    simp only [List.foldl_cons, ih]
    by_cases hk : key h = k
    · subst hk
      rw [lookupD_updD_self]
      simp [add_comm, add_assoc, add_left_comm]
    · rw [lookupD_updD_ne _ _ _ _ _ _ (fun hc => hk hc.symm)]
      simp [hk]

/-- Keys stay duplicate free under repeated dict accumulation. -/
theorem nodup_keys_foldl_updD {τ : Type} {α β : Type} [DecidableEq α]
    (key : τ → α) (f : τ → β → β) (d : τ → β) (l : List τ)
    (m : List (α × β)) (hn : (m.map Prod.fst).Nodup) :
    (((l.foldl (fun m t => updD m (key t) (f t) (d t)) m)).map Prod.fst).Nodup := by
  induction l generalizing m with
  | nil => simpa
  | cons h t ih => exact ih _ (nodup_keys_updD m (key h) (f h) (d h) hn)

/-- Every pair in a dict built by repeated accumulation is either from
the initial dict or has a value of the form f t b for some processed t
with matching key. -/
theorem mem_foldl_updD {τ : Type} {α β : Type} [DecidableEq α]
    (key : τ → α) (f : τ → β → β) (d : τ → β) (l : List τ)
    (m : List (α × β)) (p : α × β)
    (hp : p ∈ l.foldl (fun m t => updD m (key t) (f t) (d t)) m) :
    p ∈ m ∨ ∃ t ∈ l, p.1 = key t ∧ ∃ b, p.2 = f t b := by
  induction l generalizing m with
  | nil => exact Or.inl hp
  | cons h t ih =>
    simp only [List.foldl_cons] at hp
    rcases ih _ hp with hmem | ⟨t0, ht0, hk, b, hb⟩
    · rcases mem_updD m (key h) (f h) (d h) p hmem with hmem | ⟨hk, b, hb⟩
      · exact Or.inl hmem
      · exact Or.inr ⟨h, List.mem_cons_self h t, hk, b, hb⟩
    · exact Or.inr ⟨t0, List.mem_cons_of_mem h ht0, hk, b, hb⟩

/-! ## Calendar arithmetic
Day numbering and ISO week computation used by the snapshot roll-ups,
following the standard civil calendar conversion algorithms. Mirrors
the Python datetime operations used by the source. -/

/-- Leap year test of the Gregorian calendar. -/
def isLeap (y : Int) : Bool := y % 4 = 0 && (y % 100 ≠ 0 || y % 400 = 0)

/-- Days elapsed since 1970-01-01 for a civil date. -/
def toDays (dt : Date) : Int :=
  let y := if dt.m ≤ 2 then dt.y - 1 else dt.y
  let era := Int.fdiv y 400
  let yoe := y - era * 400
  let mp := if dt.m ≤ 2 then dt.m + 9 else dt.m - 3
  let doy := Int.fdiv (153 * mp + 2) 5 + dt.d - 1
  let doe := yoe * 365 + Int.fdiv yoe 4 - Int.fdiv yoe 100 + doy
  era * 146097 + doe - 719468

/-- Civil date from days since 1970-01-01 (inverse of toDays). -/
def fromDays (z0 : Int) : Date :=
  let z := z0 + 719468
  let era := Int.fdiv z 146097
  let doe := z - era * 146097
  let yoe := Int.fdiv
    (doe - Int.fdiv doe 1460 + Int.fdiv doe 36524 - Int.fdiv doe 146096) 365
  let y := yoe + era * 400
  let doy := doe - (365 * yoe + Int.fdiv yoe 4 - Int.fdiv yoe 100)
  let mp := Int.fdiv (5 * doy + 2) 153
  let d := doy - Int.fdiv (153 * mp + 2) 5 + 1
  let m := if mp < 10 then mp + 3 else mp - 9
  ⟨if m ≤ 2 then y + 1 else y, m, d⟩

/-- ISO weekday: 1 for Monday through 7 for Sunday. -/
def isoWeekday (dt : Date) : Int := (toDays dt + 3) % 7 + 1

/-- Days before the start of month m in a non leap year. -/
def cumDays (m : Int) : Int :=
  if m = 1 then 0 else if m = 2 then 31 else if m = 3 then 59
  else if m = 4 then 90 else if m = 5 then 120 else if m = 6 then 151
  else if m = 7 then 181 else if m = 8 then 212 else if m = 9 then 243
  else if m = 10 then 273 else if m = 11 then 304 else 334

/-- Ordinal day of the year of a date. -/
def dayOfYear (dt : Date) : Int :=
  cumDays dt.m + (if 2 < dt.m && isLeap dt.y then 1 else 0) + dt.d

/-- First two components of the Python date.isocalendar() result: the
ISO year and ISO week number, computed through the Thursday of the week
of the given date. -/
def isoCalendar (dt : Date) : Int × Int :=
  let th := fromDays (toDays dt + (4 - isoWeekday dt))
  (th.y, Int.fdiv (dayOfYear th - 1) 7 + 1)

/-- Unix timestamp in seconds of midnight of a date, modelling
datetime.combine(d, time.min).timestamp() with a UTC clock. -/
def dateToTs (dt : Date) : Int := 86400 * toDays dt

/-! ## SpendingAggregator
Translation of Database.get_spending_by_category
(src/backend/app/database.py lines 718 to 784). The database query
filters (user match, amount strictly negative, half open timestamp
interval, optional account filter) are modelled as a list filter over
the transaction table; the Python aggregation loop is a fold. -/

/-- Row of the simplefin_transactions table, with the columns the
aggregator selects. transaction_date is a unix timestamp in seconds,
as stored; the service converts dates to timestamps before querying. -/
structure Txn where
  user_id : String
  amount : ℚ
  transaction_date : Int
  category_id : Option String
  subcategory_id : Option String
  simplefin_account_id : String
deriving DecidableEq, Repr

/-- Query predicate of get_spending_by_category: the user filter, the
expenses only filter amount < 0, the half open interval
startTs ≤ transaction_date < endTs, and the account filter, which is
applied only when a nonempty account list is given (the Python code
checks the list for truthiness, so None and the empty list both mean
all accounts). -/
def txnSelected (uid : String) (startTs endTs : Int)
    (accountIds : Option (List String)) (t : Txn) : Bool :=
  t.user_id = uid && t.amount < 0
    && startTs ≤ t.transaction_date && t.transaction_date < endTs
    && (match accountIds with
        | none => true
        | some [] => true
        | some l => t.simplefin_account_id ∈ l)

/-- Aggregation state: the running total and the two spending maps. -/
structure Spending where
  total : ℚ
  categories : List (String × ℚ)
  subcategories : List (String × ℚ)
deriving DecidableEq, Repr

/-- Truthiness of an optional string (Python: if txn.get(field):). -/
def truthyStr (o : Option String) : Bool :=
  match o with
  | none => false
  | some s => !s.isEmpty

/-- Loop body of the aggregation in get_spending_by_category: add
abs(amount) to the total, to the category bucket when the transaction
has a truthy category_id, and to the subcategory bucket when it has a
truthy subcategory_id. -/
def spendStep (s : Spending) (t : Txn) : Spending :=
  let amount := |t.amount|
  let total := s.total + amount
  let categories :=
    if truthyStr t.category_id then
      updD s.categories (t.category_id.getD "") (· + amount) 0
    else s.categories
  let subcategories :=
    if truthyStr t.subcategory_id then
      updD s.subcategories (t.subcategory_id.getD "") (· + amount) 0
    else s.subcategories
  ⟨total, categories, subcategories⟩

/-- Aggregation part of Database.get_spending_by_category: filter the
transaction table by the query predicate, then run the Python loop. -/
def spendingAggregate (table : List Txn) (uid : String)
    (startTs endTs : Int) (accountIds : Option (List String)) : Spending :=
  (table.filter (txnSelected uid startTs endTs accountIds)).foldl spendStep
    ⟨0, [], []⟩

theorem spendStep_total (s : Spending) (t : Txn) :
    (spendStep s t).total = s.total + |t.amount| := rfl

theorem spendStep_categories (s : Spending) (t : Txn) :
    (spendStep s t).categories =
      if truthyStr t.category_id then
        updD s.categories (t.category_id.getD "") (· + |t.amount|) 0
      else s.categories := rfl

theorem spendStep_subcategories (s : Spending) (t : Txn) :
    (spendStep s t).subcategories =
      if truthyStr t.subcategory_id then
        updD s.subcategories (t.subcategory_id.getD "") (· + |t.amount|) 0
      else s.subcategories := rfl

theorem spendFold_total (l : List Txn) (s : Spending) :
    (l.foldl spendStep s).total = s.total + (l.map (fun t => |t.amount|)).sum := by
  induction l generalizing s with
  | nil => simp
  | cons h t ih => simp [ih, spendStep_total, add_assoc]

theorem truthyStr_some_ne (c : String) (hc : c ≠ "") :
    truthyStr (some c) = true := by
  have h1 : ¬ c.isEmpty = true := fun h => hc ((String.isEmpty_iff c).mp h)
  simp [truthyStr, h1]

theorem spendFold_categories (l : List Txn) (s : Spending) (c : String)
    (hc : c ≠ "") :
    lookupD (l.foldl spendStep s).categories c 0
      = lookupD s.categories c 0
        + ((l.filter (fun t => t.category_id = some c)).map
            (fun t => |t.amount|)).sum := by
  induction l generalizing s with
  | nil => simp
  | cons h t ih =>
    rw [List.foldl_cons, ih]
    rcases hcat : h.category_id with _ | c2
    · simp [spendStep_categories, hcat, truthyStr, List.filter_cons]
    · by_cases hc2 : c2 = ""
      · subst hc2
        have : truthyStr (some "") = false := rfl
        simp [spendStep_categories, hcat, this, List.filter_cons, Ne.symm hc]
      · by_cases hcc : c2 = c
        · subst hcc
          rw [spendStep_categories, hcat, if_pos (truthyStr_some_ne c2 hc2)]
          simp only [Option.getD_some]
          rw [lookupD_updD_self]
          simp [List.filter_cons, hcat, add_assoc, add_comm, add_left_comm]
        · rw [spendStep_categories, hcat, if_pos (truthyStr_some_ne c2 hc2)]
          simp only [Option.getD_some]
          rw [lookupD_updD_ne _ _ _ _ _ _ (fun h => hcc h.symm)]
          simp [List.filter_cons, hcat, hcc]

theorem spendFold_subcategories (l : List Txn) (s : Spending) (c : String)
    (hc : c ≠ "") :
    lookupD (l.foldl spendStep s).subcategories c 0
      = lookupD s.subcategories c 0
        + ((l.filter (fun t => t.subcategory_id = some c)).map
            (fun t => |t.amount|)).sum := by
  induction l generalizing s with
  | nil => simp
  | cons h t ih =>
    rw [List.foldl_cons, ih]
    rcases hcat : h.subcategory_id with _ | c2
    · simp [spendStep_subcategories, hcat, truthyStr, List.filter_cons]
    · by_cases hc2 : c2 = ""
      · subst hc2
        have : truthyStr (some "") = false := rfl
        simp [spendStep_subcategories, hcat, this, List.filter_cons, Ne.symm hc]
      · by_cases hcc : c2 = c
        · subst hcc
          rw [spendStep_subcategories, hcat, if_pos (truthyStr_some_ne c2 hc2)]
          simp only [Option.getD_some]
          rw [lookupD_updD_self]
          simp [List.filter_cons, hcat, add_assoc, add_comm, add_left_comm]
        · rw [spendStep_subcategories, hcat, if_pos (truthyStr_some_ne c2 hc2)]
          simp only [Option.getD_some]
          rw [lookupD_updD_ne _ _ _ _ _ _ (fun h => hcc h.symm)]
          simp [List.filter_cons, hcat, hcc]

/-- C5. The spending aggregation selects exactly the transactions of
the user with startTs ≤ posted timestamp < endTs (upper bound
exclusive), negative amount, and passing the account filter, as stated
by the predicate txnSelected; the running total is the sum of
abs(amount) over those transactions; the by category map holds, at each
category id, the sum of abs(amount) over the selected transactions
carrying that category id; and the by subcategory map likewise for
subcategory ids, so a transaction carrying both ids contributes to both
maps. Source: Database.get_spending_by_category,
src/backend/app/database.py lines 747 to 784. -/
theorem c5_spending_aggregation (table : List Txn) (uid : String)
    (startTs endTs : Int) (accountIds : Option (List String)) :
    (spendingAggregate table uid startTs endTs accountIds).total
      = (((table.filter (txnSelected uid startTs endTs accountIds))).map
          (fun t => |t.amount|)).sum
    ∧ (∀ c : String, c ≠ "" →
        lookupD (spendingAggregate table uid startTs endTs accountIds).categories c 0
          = (((table.filter (txnSelected uid startTs endTs accountIds)).filter
              (fun t => t.category_id = some c)).map (fun t => |t.amount|)).sum)
    ∧ (∀ c : String, c ≠ "" →
        lookupD (spendingAggregate table uid startTs endTs accountIds).subcategories c 0
          = (((table.filter (txnSelected uid startTs endTs accountIds)).filter
              (fun t => t.subcategory_id = some c)).map (fun t => |t.amount|)).sum) := by
  refine ⟨?_, ?_, ?_⟩
  · rw [spendingAggregate, spendFold_total]
    simp
  · intro c hc
    rw [spendingAggregate, spendFold_categories _ _ _ hc]
    simp [lookupD, alookup]
  · intro c hc
    rw [spendingAggregate, spendFold_subcategories _ _ _ hc]
    simp [lookupD, alookup]

/-- Witness for C5 at a concrete input: one transaction carrying both a
category and a subcategory, one income transaction excluded, one
transaction outside the interval. -/
theorem c5_spending_aggregation_witness :
    ("groceries" : String) ≠ ""
    ∧ lookupD (spendingAggregate
        [⟨"u1", -20, 100, some "groceries", some "produce", "a1"⟩,
         ⟨"u1", 50, 100, some "groceries", none, "a1"⟩,
         ⟨"u1", -7, 999, some "groceries", none, "a1"⟩]
        "u1" 0 200 none).categories "groceries" 0
      = ((([⟨"u1", -20, 100, some "groceries", some "produce", "a1"⟩,
            ⟨"u1", 50, 100, some "groceries", none, "a1"⟩,
            ⟨"u1", -7, 999, some "groceries", none, "a1"⟩].filter
            (txnSelected "u1" 0 200 none)).filter
            (fun t => t.category_id = some "groceries")).map
            (fun t => |t.amount|)).sum :=
  ⟨by decide,
   (c5_spending_aggregation
      [⟨"u1", -20, 100, some "groceries", some "produce", "a1"⟩,
       ⟨"u1", 50, 100, some "groceries", none, "a1"⟩,
       ⟨"u1", -7, 999, some "groceries", none, "a1"⟩]
      "u1" 0 200 none).2.1 "groceries" (by decide)⟩

/-! ## BudgetResolver and BudgetSummaryBuilder
Translation of BudgetService.get_budget_summary
(src/backend/app/services/budget_service.py lines 13 to 134) and of the
dict literal returned by Database.get_spending_by_category (database.py
lines 780 to 784). The data access layer is modelled as a record of
lookup functions, one per Database method used. -/

/-- Value of the heterogeneous Python dict returned by
get_spending_by_category: either a number or a map from ids to
amounts. -/
inductive SpendVal where
  | num (q : ℚ)
  | qmap (m : List (String × ℚ))
deriving DecidableEq

/-- Full return value of Database.get_spending_by_category: the dict
literal with exactly the keys total, categories and subcategories
(database.py lines 780 to 784). -/
def getSpendingByCategory (table : List Txn) (uid : String)
    (startTs endTs : Int) (accountIds : Option (List String)) :
    List (String × SpendVal) :=
  let s := spendingAggregate table uid startTs endTs accountIds
  [("total", .num s.total),
   ("categories", .qmap s.categories),
   ("subcategories", .qmap s.subcategories)]

/-- Python dict subscript access: raises KeyError when absent. -/
def dictGet (m : List (String × SpendVal)) (k : String) :
    Except PyErr SpendVal :=
  match alookup m k with
  | some v => .ok v
  | none => .error (.keyError k)

/-- Coercion of a dict value to a map; the num branch never occurs for
the keys on which it is used. -/
def asQmap : SpendVal → List (String × ℚ)
  | .qmap m => m
  | .num _ => []

/-- Coercion of a dict value to a number; the qmap branch never occurs
for the keys on which it is used. -/
def asNum : SpendVal → ℚ
  | .num q => q
  | .qmap _ => 0

/-- Row of the budgets table with the fields the service reads. -/
structure Budget where
  id : String
  user_id : String
  name : String
  is_default : Bool
deriving DecidableEq, Repr

/-- Row of the budget_months table (a month override) with the field
the service reads. -/
structure OverrideRow where
  budget_id : String
deriving DecidableEq, Repr

/-- Row of the budget_line_items table with the fields the service
reads. -/
structure LineItem where
  id : String
  category_id : String
  subcategory_id : Option String
  amount : ℚ
deriving DecidableEq, Repr

/-- Data access collaborator of the budget service: one field per
Database method used by get_budget_summary, plus the transaction table
read by get_spending_by_category. -/
structure DB where
  budget_month : String → Date → Option OverrideRow
  default_budget : String → Option Budget
  budget : String → Option Budget
  line_items : String → List LineItem
  account_ids : String → List String
  txns : List Txn

/-- Parsed month argument: the two integer components of a well formed
YYYY-MM string after split and int conversion. -/
structure MonthStr where
  year : Int
  month : Int
deriving DecidableEq, Repr

/-- Validation performed by the Python date constructor
date(year, month, 1): year in [1, 9999] and month in [1, 12], else it
raises ValueError, which the service re-raises and the router maps to
an invalid input response. -/
def dateCtorOk (y m : Int) : Bool :=
  1 ≤ y && y ≤ 9999 && 1 ≤ m && m ≤ 12

/-- Budget resolution steps of get_budget_summary (budget_service.py
lines 32 to 49): validate the month via the date constructor, look up a
month override for (user, first day of month); when present the
referenced budget id is active, otherwise the default budget; when no
default exists the result is none, which the router turns into a not
found response. -/
def resolveActiveBudgetId (db : DB) (uid : String) (ms : MonthStr) :
    Except PyErr (Option String) :=
  if dateCtorOk ms.year ms.month then
    match db.budget_month uid ⟨ms.year, ms.month, 1⟩ with
    | some ov => .ok (some ov.budget_id)
    | none =>
      match db.default_budget uid with
      | some b => .ok (some b.id)
      | none => .ok none
  else .error .valueError

/-- End of the month range (budget_service.py lines 64 to 67): first
day of the following month, with December rolling into January. -/
def monthEnd (ms : MonthStr) : Date :=
  if ms.month = 12 then ⟨ms.year + 1, 1, 1⟩ else ⟨ms.year, ms.month + 1, 1⟩

/-- Line item of the summary response, with actuals. -/
structure SummaryItem where
  id : String
  budget_id : String
  category_id : String
  subcategory_id : Option String
  amount : ℚ
  spent : ℚ
  remaining : ℚ
deriving DecidableEq, Repr

/-- Category with spending but no line item. -/
structure UnbudgetedCategory where
  category_id : String
  spent : ℚ
deriving DecidableEq, Repr

/-- Budget summary response structure. -/
structure BudgetSummary where
  budget_id : String
  budget_name : String
  total_budgeted : ℚ
  total_spent : ℚ
  line_items : List SummaryItem
  unbudgeted_categories : List UnbudgetedCategory
  subcategory_spending : List (String × ℚ)
  uncategorized_spending : ℚ
deriving DecidableEq, Repr

/-- Translation of BudgetService.get_budget_summary. The ok none result
models the Python None return (mapped to not found by the router); the
error results model raised exceptions. Note: the subscript access
spending of the key uncategorized (budget_service.py line 79) raises
KeyError on every execution that reaches it, because the dict built by
get_spending_by_category has no such key, so the summary construction
below it (lines 82 to 134, translated in full) is unreachable. -/
def getBudgetSummary (db : DB) (uid : String) (ms : MonthStr) :
    Except PyErr (Option BudgetSummary) := do
  let bidOpt ← resolveActiveBudgetId db uid ms
  match bidOpt with
  | none => return none
  | some budget_id =>
    match db.budget budget_id with
    | none => return none
    | some budget =>
      if budget.user_id ≠ uid then return none
      else do
        let line_items := db.line_items budget_id
        let account_ids := db.account_ids budget_id
        let startTs := dateToTs ⟨ms.year, ms.month, 1⟩
        let endTs := dateToTs (monthEnd ms)
        let spending := getSpendingByCategory db.txns uid startTs endTs
          (if account_ids.isEmpty then none else some account_ids)
        let category_spending := asQmap (← dictGet spending "categories")
        let subcategory_spending := asQmap (← dictGet spending "subcategories")
        let uncategorized_spending := asNum (← dictGet spending "uncategorized")
        let itemsCovered :=
          line_items.foldl (fun (acc : List SummaryItem × List String) item =>
            let spent :=
              if truthyStr item.subcategory_id then
                lookupD subcategory_spending (item.subcategory_id.getD "") 0
              else lookupD category_spending item.category_id 0
            let covered :=
              if truthyStr item.subcategory_id then acc.2
              else acc.2 ++ [item.category_id]
            (acc.1 ++ [⟨item.id, budget_id, item.category_id,
              item.subcategory_id, item.amount, round2 spent,
              round2 (item.amount - spent)⟩], covered))
            ([], [])
        let summary_line_items := itemsCovered.1
        let budgeted_category_ids := itemsCovered.2
        let unbudgeted_categories :=
          (category_spending.filter (fun p =>
            !(budgeted_category_ids.contains p.1) && decide (0 < p.2))).map
            (fun p => (⟨p.1, round2 p.2⟩ : UnbudgetedCategory))
        let total_budgeted := (summary_line_items.map SummaryItem.amount).sum
        let total_spent := (summary_line_items.map SummaryItem.spent).sum
          + (unbudgeted_categories.map UnbudgetedCategory.spent).sum
          + uncategorized_spending
        return some ⟨budget_id, budget.name, round2 total_budgeted,
          round2 total_spent, summary_line_items, unbudgeted_categories,
          subcategory_spending.map (fun p => (p.1, round2 p.2)),
          round2 uncategorized_spending⟩

theorem exceptBind_ok {ε α β : Type} (a : α) (f : α → Except ε β) :
    (Except.ok a >>= f) = f a := rfl

theorem exceptBind_error {ε α β : Type} (e : ε) (f : α → Except ε β) :
    ((Except.error e : Except ε α) >>= f) = Except.error e := rfl

/-- C4. Budget resolution: with a valid month, a month override makes
the referenced budget active; without one the default budget (when any)
is resolved, and the absence of a default yields the none result that
the caller maps to not found; a month outside [1, 12] fails with
ValueError (mapped to an invalid input response) independently of the
store, hence before any lookup. Source: budget_service.py lines 32
to 57, router mapping in routers/budgets.py lines 56 to 65. -/
theorem c4_budget_resolution :
    (∀ (db : DB) (uid : String) (ms : MonthStr) (ov : OverrideRow),
        dateCtorOk ms.year ms.month = true →
        db.budget_month uid ⟨ms.year, ms.month, 1⟩ = some ov →
        resolveActiveBudgetId db uid ms = .ok (some ov.budget_id))
    ∧ (∀ (db : DB) (uid : String) (ms : MonthStr),
        dateCtorOk ms.year ms.month = true →
        db.budget_month uid ⟨ms.year, ms.month, 1⟩ = none →
        resolveActiveBudgetId db uid ms
          = .ok ((db.default_budget uid).map Budget.id))
    ∧ (∀ (db : DB) (uid : String) (ms : MonthStr),
        (ms.month < 1 ∨ 12 < ms.month) →
        resolveActiveBudgetId db uid ms = .error .valueError) := by
  refine ⟨?_, ?_, ?_⟩
  · intro db uid ms ov hok hov
    simp [resolveActiveBudgetId, hok, hov]
  · intro db uid ms hok hnone
    rcases hd : db.default_budget uid with _ | b <;>
      simp [resolveActiveBudgetId, hok, hnone, hd]
  · intro db uid ms hm
    have hbad : ¬ (dateCtorOk ms.year ms.month = true) := by
      simp only [dateCtorOk, Bool.and_eq_true, decide_eq_true_eq]
      intro hcon
      rcases hm with h1 | h1 <;> omega
    rw [resolveActiveBudgetId, if_neg hbad]

/-- Store with a month override for (u1, July 2024), used by the C4
witness. -/
def dbC4A : DB :=
  ⟨fun u d => if u = "u1" ∧ d = ⟨2024, 7, 1⟩ then some ⟨"b-ov"⟩ else none,
   fun _ => some ⟨"b-def", "u1", "Default", true⟩,
   fun _ => none, fun _ => [], fun _ => [], []⟩

/-- Store with a default budget and no overrides, used by the C4
witness. -/
def dbC4B : DB :=
  ⟨fun _ _ => none,
   fun u => if u = "u1" then some ⟨"b-def", "u1", "Default", true⟩ else none,
   fun _ => none, fun _ => [], fun _ => [], []⟩

/-- Witness for C4: override resolution, default resolution, and the
invalid month 13 failing regardless of the store. -/
theorem c4_budget_resolution_witness :
    resolveActiveBudgetId dbC4A "u1" ⟨2024, 7⟩ = .ok (some "b-ov")
    ∧ resolveActiveBudgetId dbC4B "u1" ⟨2024, 7⟩
        = .ok ((dbC4B.default_budget "u1").map Budget.id)
    ∧ resolveActiveBudgetId dbC4B "u1" ⟨2024, 13⟩ = .error .valueError :=
  ⟨c4_budget_resolution.1 dbC4A "u1" ⟨2024, 7⟩ ⟨"b-ov"⟩ (by decide) (by decide),
   c4_budget_resolution.2.1 dbC4B "u1" ⟨2024, 7⟩ (by decide) (by decide),
   c4_budget_resolution.2.2 dbC4B "u1" ⟨2024, 13⟩ (by decide)⟩

/-- C10. Ownership guard of the budget summary: when the resolved
budget id does not exist in the store, or the stored budget belongs to
a different user than the requester, get_budget_summary returns the
none result (mapped to not found) and never a summary built from the
other budget. Source: budget_service.py lines 51 to 57. -/
theorem c10_summary_ownership :
    (∀ (db : DB) (uid : String) (ms : MonthStr) (bid : String),
        resolveActiveBudgetId db uid ms = .ok (some bid) →
        db.budget bid = none →
        getBudgetSummary db uid ms = .ok none)
    ∧ (∀ (db : DB) (uid : String) (ms : MonthStr) (bid : String) (b : Budget),
        resolveActiveBudgetId db uid ms = .ok (some bid) →
        db.budget bid = some b →
        b.user_id ≠ uid →
        getBudgetSummary db uid ms = .ok none) := by
  constructor
  · intro db uid ms bid hres hb
    rw [getBudgetSummary, hres, exceptBind_ok]
    simp only [hb]
    rfl
  · intro db uid ms bid b hres hb hbu
    rw [getBudgetSummary, hres, exceptBind_ok]
    simp only [hb, if_pos hbu]
    rfl

/-- Store where the resolved budget belongs to another user, used by
the C10 witness. -/
def dbC10 : DB :=
  ⟨fun _ _ => none,
   fun u => if u = "u1" then some ⟨"b2", "u2", "Foreign", true⟩ else none,
   fun bid => if bid = "b2" then some ⟨"b2", "u2", "Foreign", true⟩ else none,
   fun _ => [⟨"li1", "catA", none, 500⟩], fun _ => [], []⟩

/-- Witness for C10: the default budget of u1 points at a budget owned
by u2; the summary request returns the none result. -/
theorem c10_summary_ownership_witness :
    resolveActiveBudgetId dbC10 "u1" ⟨2024, 5⟩ = .ok (some "b2")
    ∧ dbC10.budget "b2" = some ⟨"b2", "u2", "Foreign", true⟩
    ∧ getBudgetSummary dbC10 "u1" ⟨2024, 5⟩ = .ok none :=
  ⟨rfl, by decide,
   c10_summary_ownership.2 dbC10 "u1" ⟨2024, 5⟩ "b2" ⟨"b2", "u2", "Foreign", true⟩
     rfl (by decide) (by decide)⟩

/-- C1. On every execution in which a budget is resolved, found and
owned by the requester, get_budget_summary fails with
KeyError uncategorized: the spending dict returned by
get_spending_by_category carries only the keys total, categories and
subcategories, while the summary code reads a fourth uncategorized
bucket, so the totals described by the claim are never produced.
Source: budget_service.py line 79 against database.py lines 780
to 784. -/
theorem c1_summary_keyerror (db : DB) (uid : String) (ms : MonthStr)
    (bid : String) (b : Budget)
    (hres : resolveActiveBudgetId db uid ms = .ok (some bid))
    (hb : db.budget bid = some b)
    (hbu : b.user_id = uid) :
    getBudgetSummary db uid ms = .error (.keyError "uncategorized") := by
  rw [getBudgetSummary, hres, exceptBind_ok]
  simp only [hb]
  rw [if_neg (by simp [hbu])]
  have hcat : ∀ (tb : List Txn) s e a,
      dictGet (getSpendingByCategory tb uid s e a) "categories"
        = .ok (.qmap (spendingAggregate tb uid s e a).categories) := by
    intro tb s e a
    rfl
  have hsub : ∀ (tb : List Txn) s e a,
      dictGet (getSpendingByCategory tb uid s e a) "subcategories"
        = .ok (.qmap (spendingAggregate tb uid s e a).subcategories) := by
    intro tb s e a
    rfl
  have hunc : ∀ (tb : List Txn) s e a,
      dictGet (getSpendingByCategory tb uid s e a) "uncategorized"
        = .error (.keyError "uncategorized") := by
    intro tb s e a
    rfl
  rw [hcat, exceptBind_ok, hsub, exceptBind_ok, hunc, exceptBind_error]

/-- Store with a default budget owned by the requester, used by the C1
witness; the store holds no transactions at all, showing the failure
does not depend on the data. -/
def dbC1 : DB :=
  ⟨fun _ _ => none,
   fun u => if u = "u1" then some ⟨"b1", "u1", "Budget", true⟩ else none,
   fun bid => if bid = "b1" then some ⟨"b1", "u1", "Budget", true⟩ else none,
   fun _ => [], fun _ => [], []⟩

/-- Witness for C1: a concrete summary request that resolves the users
own default budget still fails with KeyError uncategorized. -/
theorem c1_summary_keyerror_witness :
    resolveActiveBudgetId dbC1 "u1" ⟨2024, 5⟩ = .ok (some "b1")
    ∧ getBudgetSummary dbC1 "u1" ⟨2024, 5⟩
        = .error (.keyError "uncategorized") :=
  ⟨rfl,
   c1_summary_keyerror dbC1 "u1" ⟨2024, 5⟩ "b1" ⟨"b1", "u1", "Budget", true⟩
     rfl (by decide) rfl⟩

/-! ## SnapshotAggregator
Translation of the roll-up in SnapshotService.get_snapshots
(src/backend/app/services/snapshot_service.py lines 191 to 260). The
function operates on the rows the database query returns, ordered by
snapshot_date ascending; granularity day returns them as points
unchanged, the other granularities aggregate into a dict keyed by the
period and return the values sorted by date. -/

/-- Roll-up granularity (validated by the router pattern
day|week|month|year). -/
inductive Granularity where
  | day | week | month | year
deriving DecidableEq, Repr

/-- Row of the net_snapshots query and, identically shaped, an output
point of get_snapshots: the output dict renames snapshot_date to date,
total_balance to balance and the daily columns to spent, income and
net, copying the values. -/
structure SnapPoint where
  date : Date
  balance : ℚ
  spent : ℚ
  income : ℚ
  net : ℚ
  transaction_count : Int
deriving DecidableEq, Repr

/-- Directives of a strptime format string, restricted to those in the
format the service uses. -/
inductive Directive where
  | G | V | W | u
deriving DecidableEq, Repr

/-- Directive list of the format string used at snapshot_service.py
line 233 to parse the week key: ISO year directive G, then the non ISO
week number directive W, then the weekday directive u. -/
def weekKeyFmt : List Directive := [.G, .W, .u]

/-- Compatibility rule of CPython strptime (Lib/_strptime.py): when a
format contains the ISO year directive G, it must also contain the ISO
week directive V together with a weekday directive, otherwise strptime
raises ValueError before producing any date. -/
def strptimeDirectivesOk (ds : List Directive) : Bool :=
  !(ds.contains .G && (!(ds.contains .V) || !(ds.contains .u)))

/-- Monday of a given ISO year and week: the date the intended format
(with directive V in place of W) would produce. -/
def mondayOfISOWeek (iy iw : Int) : Date :=
  let jan4 := (⟨iy, 1, 4⟩ : Date)
  let monday1 := toDays jan4 - (isoWeekday jan4 - 1)
  fromDays (monday1 + 7 * (iw - 1))

/-- Model of the strptime call building the representative date of a
week group: CPython rejects the format weekKeyFmt because directive G
appears without directive V, so the call raises ValueError on every
input; the ok branch (the intended parse) is unreachable. -/
def strptimeWeekKey (iy iw : Int) : Except PyErr Date :=
  if strptimeDirectivesOk weekKeyFmt then .ok (mondayOfISOWeek iy iw)
  else .error .valueError

/-- Grouping key of a period; a Lean rendering of the Python keys
(year, week) tuple, (year, month) tuple, bare year, and, for the goal
series, the formatted key strings, which are in bijection with these
values. -/
inductive PeriodKey where
  | day (dt : Date)
  | week (iy iw : Int)
  | month (y m : Int)
  | year (y : Int)
deriving DecidableEq, Repr

/-- Grouping key and representative date of a row in the week, month
and year branches of get_snapshots; the week branch computes the key
from isocalendar and then calls strptime for the representative date,
which always raises. The day case is never consulted (get_snapshots
returns earlier for granularity day). -/
def netKeyOf (g : Granularity) (dt : Date) : Except PyErr (PeriodKey × Date) :=
  match g with
  | .week =>
    let ic := isoCalendar dt
    (strptimeWeekKey ic.1 ic.2).map (fun kd => (.week ic.1 ic.2, kd))
  | .month => .ok (.month dt.y dt.m, ⟨dt.y, dt.m, 1⟩)
  | .year => .ok (.year dt.y, ⟨dt.y, 1, 1⟩)
  | .day => .ok (.day dt, dt)

/-- Body of the aggregation loop of get_snapshots (lines 226 to 257):
on a fresh key the group is initialised with the representative date,
the balance of the row and zeroed sums; then spent, income, net and the
transaction count are accumulated and the balance is overwritten with
the balance of the current (latest) row. -/
def netAggStep (g : Granularity) (acc : List (PeriodKey × SnapPoint))
    (r : SnapPoint) : Except PyErr (List (PeriodKey × SnapPoint)) := do
  let kkd ← netKeyOf g r.date
  return updD acc kkd.1
    (fun p => ⟨p.date, r.balance, p.spent + r.spent, p.income + r.income,
      p.net + r.net, p.transaction_count + r.transaction_count⟩)
    ⟨kkd.2, r.balance, 0, 0, 0, 0⟩

/-- Roll-up of SnapshotService.get_snapshots over the queried rows:
granularity day maps rows to points field by field; the other
granularities run the aggregation loop and sort the group values by
date. -/
def rollupNet (rows : List SnapPoint) (g : Granularity) :
    Except PyErr (List SnapPoint) :=
  match g with
  | .day => .ok (rows.map (fun r =>
      ⟨r.date, r.balance, r.spent, r.income, r.net, r.transaction_count⟩))
  | _ => do
    let agg ← rows.foldlM (netAggStep g) []
    return sortBy (fun a b => Date.leb a.date b.date) (agg.map Prod.snd)

/-- C7. Granularity day is the identity transform: the roll-up returns
the daily series unchanged, and applying it to its own output returns
the same series again. Source: snapshot_service.py lines 191 to 211. -/
theorem c7_day_rollup_identity (rows : List SnapPoint) :
    rollupNet rows .day = .ok rows
    ∧ (rollupNet rows .day).bind (fun out => rollupNet out .day)
        = rollupNet rows .day := by
  have hmap : (fun (r : SnapPoint) =>
      (⟨r.date, r.balance, r.spent, r.income, r.net, r.transaction_count⟩
        : SnapPoint)) = id := by
    funext r
    cases r
    rfl
  have h1 : rollupNet rows .day = .ok rows := by
    rw [rollupNet, hmap, List.map_id]
  refine ⟨h1, ?_⟩
  rw [h1]
  exact h1

/-- C6. For granularity week, the net worth roll-up raises ValueError
on every nonempty daily series: the per row representative date is
computed with strptime on a format mixing directive G with directive W,
which CPython always rejects, so no weekly groups are ever emitted.
The month and year branches, and all branches of the goal series
roll-up, do emit the balance of the last date of each group as the spec
states; the week key format is the slip. Source: snapshot_service.py
lines 230 to 233. -/
theorem c6_week_rollup_raises (rows : List SnapPoint) (hne : rows ≠ []) :
    rollupNet rows .week = .error .valueError := by
  rcases rows with _ | ⟨r, t⟩
  · exact absurd rfl hne
  · rfl

/-- Witness for C6: a one point series in January 2024 already fails. -/
theorem c6_week_rollup_raises_witness :
    ([(⟨⟨2024, 1, 15⟩, 100, 0, 0, 0, 0⟩ : SnapPoint)] : List SnapPoint) ≠ []
    ∧ rollupNet [(⟨⟨2024, 1, 15⟩, 100, 0, 0, 0, 0⟩ : SnapPoint)] .week
        = .error .valueError :=
  ⟨by decide, c6_week_rollup_raises _ (by decide)⟩

/-! ## GoalProgressCalculator
Translation of _compute_progress (src/backend/app/routers/goals.py
lines 113 to 147) and of Database.get_goal_snapshots
(src/backend/app/database.py lines 869 to 940). -/

/-- Goal type enumeration. -/
inductive GoalType where
  | savings | debt_payment
deriving DecidableEq, Repr

/-- Goal fields read by the progress computation. -/
structure Goal where
  goal_type : GoalType
  target_amount : ℚ
deriving DecidableEq, Repr

/-- Goal account association joined with the account, as returned by
Database.get_goal_accounts. -/
structure GoalAccount where
  simplefin_account_id : String
  allocation_percentage : ℚ
  current_balance : ℚ
  starting_balance : Option ℚ
deriving DecidableEq, Repr

/-- Python or-expression on an optional number with a fallback: None
and 0.0 are falsy and give the fallback; any other number is returned.
Models the expression ga.get of starting_balance or-else the current
balance in _compute_progress. -/
def pyOrQ (o : Option ℚ) (fallback : ℚ) : ℚ :=
  match o with
  | none => fallback
  | some v => if v = 0 then fallback else v

/-- Translation of _compute_progress: current amount by goal type, then
the percentage, zero without division when the target is not positive,
else the ratio times 100 clamped to [0, 100]; both outputs rounded to 2
decimals at the boundary. -/
def computeProgress (goal : Goal) (gas : List GoalAccount) : ℚ × ℚ :=
  let target := goal.target_amount
  let current :=
    if goal.goal_type = .savings then
      gas.foldl (fun acc ga =>
        acc + ga.current_balance * (ga.allocation_percentage / 100)) 0
    else
      gas.foldl (fun acc ga =>
        acc + (|pyOrQ ga.starting_balance ga.current_balance|
          - |ga.current_balance|)) 0
  if target ≤ 0 then (round2 current, 0)
  else (round2 current, round2 (max 0 (min (current / target * 100) 100)))

/-- C8 counterexample. The claim states the debt payoff current amount
is the sum of abs starting balance minus abs current balance; for an
account whose captured starting balance is exactly 0 (a debt account
may be attached at balance 0) with current balance -50, the claimed
formula gives -50 but the code gives 0, because the Python or-operator
treats the stored 0.0 as falsy and substitutes the current balance. -/
theorem c8_goal_progress_counterexample :
    (computeProgress ⟨.debt_payment, 100⟩ [⟨"a1", 100, -50, some 0⟩]).1 = 0
    ∧ round2 (|(0 : ℚ)| - |(-50 : ℚ)|) = -50
    ∧ (0 : ℚ) ≠ -50 := by
  refine ⟨by norm_num [computeProgress, pyOrQ, round2,
      (by decide : ¬ (GoalType.debt_payment = GoalType.savings))],
    by norm_num [round2], by norm_num⟩

/-- C8 as amended. The point in time goal progress: for savings goals
the current amount is the rounded sum of current balance times
allocation percentage over 100; for debt payoff goals it is the rounded
sum of abs of (the captured starting balance when present and nonzero,
else the current balance) minus abs of the current balance; the
percentage is 0 without division when the target is not positive, and
otherwise the rounded clamp of current over target times 100 to the
interval [0, 100]. Source: routers/goals.py lines 113 to 147. -/
theorem c8_goal_progress (goal : Goal) (gas : List GoalAccount) :
    (goal.goal_type = .savings →
      (computeProgress goal gas).1
        = round2 ((gas.map (fun ga =>
            ga.current_balance * (ga.allocation_percentage / 100))).sum))
    ∧ (goal.goal_type = .debt_payment →
      (computeProgress goal gas).1
        = round2 ((gas.map (fun ga =>
            |pyOrQ ga.starting_balance ga.current_balance|
              - |ga.current_balance|)).sum))
    ∧ (goal.target_amount ≤ 0 → (computeProgress goal gas).2 = 0)
    ∧ (0 < goal.target_amount →
      (computeProgress goal gas).2
        = round2 (max 0 (min
            ((if goal.goal_type = .savings then
                (gas.map (fun ga =>
                  ga.current_balance * (ga.allocation_percentage / 100))).sum
              else
                (gas.map (fun ga =>
                  |pyOrQ ga.starting_balance ga.current_balance|
                    - |ga.current_balance|)).sum)
              / goal.target_amount * 100) 100))) := by
  have hsav : gas.foldl (fun acc ga =>
      acc + ga.current_balance * (ga.allocation_percentage / 100)) 0
      = (gas.map (fun ga =>
          ga.current_balance * (ga.allocation_percentage / 100))).sum := by
    rw [foldl_add_eq_sum]
    ring
  have hdebt : gas.foldl (fun acc ga =>
      acc + (|pyOrQ ga.starting_balance ga.current_balance|
        - |ga.current_balance|)) 0
      = (gas.map (fun ga =>
          |pyOrQ ga.starting_balance ga.current_balance|
            - |ga.current_balance|)).sum := by
    rw [foldl_add_eq_sum]
    ring
  refine ⟨?_, ?_, ?_, ?_⟩
  · intro h
    by_cases ht : goal.target_amount ≤ 0 <;>
      simp [computeProgress, h, hsav, ht]
  · intro h
    by_cases ht : goal.target_amount ≤ 0 <;>
      simp [computeProgress, h, hdebt, ht]
  · intro ht
    simp [computeProgress, ht]
  · intro ht
    have htn : ¬ goal.target_amount ≤ 0 := not_le.mpr ht
    by_cases hg : goal.goal_type = .savings <;>
      simp [computeProgress, hg, htn, hsav, hdebt]

/-- Witness for C8 at the worked example of the spec: a savings goal
with target 10000 and one account at 50 percent allocation and balance
4000, and a debt goal with starting balance -8000, current -6500 and
target 100. -/
theorem c8_goal_progress_witness :
    ((⟨.savings, 10000⟩ : Goal).goal_type = .savings
      ∧ (computeProgress ⟨.savings, 10000⟩ [⟨"a1", 50, 4000, none⟩]).1
          = round2 (([(⟨"a1", 50, 4000, none⟩ : GoalAccount)].map (fun ga =>
              ga.current_balance * (ga.allocation_percentage / 100))).sum))
    ∧ ((⟨.debt_payment, 100⟩ : Goal).goal_type = .debt_payment
      ∧ (computeProgress ⟨.debt_payment, 100⟩ [⟨"a1", 100, -6500, some (-8000)⟩]).1
          = round2 (([(⟨"a1", 100, -6500, some (-8000)⟩ : GoalAccount)].map (fun ga =>
              |pyOrQ ga.starting_balance ga.current_balance|
                - |ga.current_balance|)).sum)) :=
  ⟨⟨rfl, (c8_goal_progress ⟨.savings, 10000⟩ [⟨"a1", 50, 4000, none⟩]).1 rfl⟩,
   ⟨rfl, (c8_goal_progress ⟨.debt_payment, 100⟩
      [⟨"a1", 100, -6500, some (-8000)⟩]).2.1 rfl⟩⟩

/-- Row of the account_balance_history query in get_goal_snapshots. -/
structure BalRow where
  simplefin_account_id : String
  snapshot_date : Date
  balance : ℚ
deriving DecidableEq, Repr

/-- Allocation map of get_goal_snapshots: dict comprehension mapping
each linked account id to its allocation percentage over 100; on a
duplicated account id the later entry overwrites the earlier one, as in
a Python dict comprehension. -/
def goalAllocationMap (gas : List GoalAccount) : List (String × ℚ) :=
  gas.foldl (fun m ga =>
    updD m ga.simplefin_account_id (fun _ => ga.allocation_percentage / 100) 0) []

/-- Database query of get_goal_snapshots: rows of the linked accounts
with snapshot_date between start and end inclusive. -/
def goalQuery (gas : List GoalAccount) (table : List BalRow)
    (startD endD : Date) : List BalRow :=
  table.filter (fun r =>
    (gas.map GoalAccount.simplefin_account_id).contains r.simplefin_account_id
    && Date.leb startD r.snapshot_date && Date.leb r.snapshot_date endD)

/-- Per row contribution to the daily totals of get_goal_snapshots:
for a debt payoff goal the raw balance; otherwise the balance weighted
by the allocation of the account (0 when absent from the map). -/
def goalContribution (gt : GoalType) (allocationMap : List (String × ℚ))
    (r : BalRow) : ℚ :=
  if gt = .debt_payment then r.balance
  else r.balance * lookupD allocationMap r.simplefin_account_id 0

/-- Grouping key of the goal series (period_key in get_goal_snapshots):
formatted strings for ISO week, calendar month and calendar year,
rendered as key values; the day case models the fallthrough that
returns the date string itself. -/
def goalPeriodKey (g : Granularity) (dt : Date) : PeriodKey :=
  match g with
  | .week => .week (isoCalendar dt).1 (isoCalendar dt).2
  | .month => .month dt.y dt.m
  | .year => .year dt.y
  | .day => .day dt

/-- Daily totals of get_goal_snapshots: the queried rows, ordered by
date, accumulated into a defaultdict keyed by snapshot date. -/
def goalDailyTotals (gas : List GoalAccount) (table : List BalRow)
    (startD endD : Date) (gt : GoalType) : List (Date × ℚ) :=
  (sortBy (fun a b => Date.leb a.snapshot_date b.snapshot_date)
      (goalQuery gas table startD endD)).foldl
    (fun m r =>
      updD m r.snapshot_date (· + goalContribution gt (goalAllocationMap gas) r) 0)
    []

/-- Translation of Database.get_goal_snapshots: empty result for a goal
without accounts; otherwise build the allocation map, query and sort
the balance rows, accumulate per date totals (defaultdict float), then
either emit the rounded daily series sorted by date, or group by the
period key (keeping, per period, the last date and total in date
order) and emit the rounded group values sorted by date. -/
def getGoalSnapshots (gas : List GoalAccount) (table : List BalRow)
    (startD endD : Date) (g : Granularity) (gt : GoalType) :
    List (Date × ℚ) :=
  if gas.isEmpty then []
  else
    match g with
    | .day =>
      (sortBy (fun a b => Date.leb a.1 b.1)
        (goalDailyTotals gas table startD endD gt)).map
        (fun p => (p.1, round2 p.2))
    | _ =>
      let periodLast := (sortBy (fun a b => Date.leb a.1 b.1)
        (goalDailyTotals gas table startD endD gt)).foldl
        (fun m p => updD m (goalPeriodKey g p.1) (fun _ => p) p) []
      (sortBy (fun a b => Date.leb a.1 b.1) (periodLast.map Prod.snd)).map
        (fun p => (p.1, round2 p.2))

/-- Every entry of the daily totals dict holds the sum of the
contributions of the queried rows of its date. -/
theorem goalDailyTotals_val (gas : List GoalAccount) (table : List BalRow)
    (startD endD : Date) (gt : GoalType) :
    ∀ q ∈ goalDailyTotals gas table startD endD gt,
      q.2 = (((goalQuery gas table startD endD).filter
          (fun r => r.snapshot_date = q.1)).map
          (goalContribution gt (goalAllocationMap gas))).sum := by
  intro q hq
  have hnod : ((goalDailyTotals gas table startD endD gt).map Prod.fst).Nodup := by
    rw [goalDailyTotals]
    exact nodup_keys_foldl_updD _ _ _ _ _ (by simp)
  have hlq := mem_alookup_of_nodup _ hnod q hq
  have hlk : lookupD (goalDailyTotals gas table startD endD gt) q.1 0 = q.2 := by
    simp [lookupD, hlq]
  rw [goalDailyTotals] at hlk
  rw [lookupD_foldl_updD_add (fun r : BalRow => r.snapshot_date)
    (goalContribution gt (goalAllocationMap gas)) _ _ q.1] at hlk
  have h0 : lookupD ([] : List (Date × ℚ)) q.1 0 = (0 : ℚ) := rfl
  rw [h0, zero_add] at hlk
  rw [← hlk]
  have hperm : List.Perm
      ((sortBy (fun a b => Date.leb a.snapshot_date b.snapshot_date)
        (goalQuery gas table startD endD)).filter
        (fun r => r.snapshot_date = q.1))
      ((goalQuery gas table startD endD).filter
        (fun r => r.snapshot_date = q.1)) :=
    (sortBy_perm _ _).filter _
  exact (hperm.map _).sum_eq

/-- Unfolding of getGoalSnapshots at granularity day. -/
theorem getGoalSnapshots_day (gas : List GoalAccount) (table : List BalRow)
    (startD endD : Date) (gt : GoalType) :
    getGoalSnapshots gas table startD endD .day gt
      = if gas.isEmpty then []
        else (sortBy (fun a b => Date.leb a.1 b.1)
          (goalDailyTotals gas table startD endD gt)).map
          (fun p => (p.1, round2 p.2)) := rfl

/-- Unfolding of getGoalSnapshots at granularity week. -/
theorem getGoalSnapshots_week (gas : List GoalAccount) (table : List BalRow)
    (startD endD : Date) (gt : GoalType) :
    getGoalSnapshots gas table startD endD .week gt
      = if gas.isEmpty then []
        else (sortBy (fun a b => Date.leb a.1 b.1)
          ((((sortBy (fun a b => Date.leb a.1 b.1)
            (goalDailyTotals gas table startD endD gt)).foldl
            (fun m p => updD m (goalPeriodKey .week p.1) (fun _ => p) p) [])).map
            Prod.snd)).map (fun p => (p.1, round2 p.2)) := rfl

/-- Unfolding of getGoalSnapshots at granularity month. -/
theorem getGoalSnapshots_month (gas : List GoalAccount) (table : List BalRow)
    (startD endD : Date) (gt : GoalType) :
    getGoalSnapshots gas table startD endD .month gt
      = if gas.isEmpty then []
        else (sortBy (fun a b => Date.leb a.1 b.1)
          ((((sortBy (fun a b => Date.leb a.1 b.1)
            (goalDailyTotals gas table startD endD gt)).foldl
            (fun m p => updD m (goalPeriodKey .month p.1) (fun _ => p) p) [])).map
            Prod.snd)).map (fun p => (p.1, round2 p.2)) := rfl

/-- Unfolding of getGoalSnapshots at granularity year. -/
theorem getGoalSnapshots_year (gas : List GoalAccount) (table : List BalRow)
    (startD endD : Date) (gt : GoalType) :
    getGoalSnapshots gas table startD endD .year gt
      = if gas.isEmpty then []
        else (sortBy (fun a b => Date.leb a.1 b.1)
          ((((sortBy (fun a b => Date.leb a.1 b.1)
            (goalDailyTotals gas table startD endD gt)).foldl
            (fun m p => updD m (goalPeriodKey .year p.1) (fun _ => p) p) [])).map
            Prod.snd)).map (fun p => (p.1, round2 p.2)) := rfl

/-- Every value of the grouped dict of the goal series is an entry of
the daily totals. -/
theorem mem_grouped_from_daily (dt : List (Date × ℚ)) (g : Granularity)
    (q : Date × ℚ)
    (hq : q ∈ (((sortBy (fun a b => Date.leb a.1 b.1) dt).foldl
      (fun m p => updD m (goalPeriodKey g p.1) (fun _ => p) p) [])).map
      Prod.snd) : q ∈ dt := by
  obtain ⟨kv, hkv1, hkv2⟩ := List.mem_map.mp hq
  rcases mem_foldl_updD (fun p0 : Date × ℚ => goalPeriodKey g p0.1)
      (fun p0 _ => p0) (fun p0 => p0) _ _ kv hkv1 with hkv | ⟨t, ht, _, _, hb⟩
  · exact absurd hkv (List.not_mem_nil kv)
  · rw [← hkv2, hb]
    exact (mem_sortBy _ _ _).mp ht

/-- C3 as amended. Every point of the goal progress series carries, at
its date, the rounded sum of the per row contributions of that date,
where a contribution is the raw balance for a debt payoff goal and the
balance weighted by allocation over 100 for a savings goal: the series
applies the savings formula per date, but for debt goals it emits raw
balance sums, not the point in time payoff formula. Source:
database.py lines 869 to 940. -/
theorem c3_goal_series_points (gas : List GoalAccount) (table : List BalRow)
    (startD endD : Date) (g : Granularity) (gt : GoalType) :
    ∀ p ∈ getGoalSnapshots gas table startD endD g gt,
      p.2 = round2 ((((goalQuery gas table startD endD).filter
          (fun r => r.snapshot_date = p.1)).map
          (goalContribution gt (goalAllocationMap gas))).sum) := by
  intro p hp
  have hfromDaily : ∀ q ∈ goalDailyTotals gas table startD endD gt,
      ((q.1, round2 q.2) : Date × ℚ) = p →
      p.2 = round2 ((((goalQuery gas table startD endD).filter
        (fun r => r.snapshot_date = p.1)).map
        (goalContribution gt (goalAllocationMap gas))).sum) := by
    intro q hq hq2
    subst hq2
    have hv := goalDailyTotals_val gas table startD endD gt q hq
    show round2 q.2 = round2 ((((goalQuery gas table startD endD).filter
      (fun r => r.snapshot_date = q.1)).map
      (goalContribution gt (goalAllocationMap gas))).sum)
    rw [hv]
  cases g with
  | day =>
    rw [getGoalSnapshots_day] at hp
    by_cases hgas : gas.isEmpty
    · rw [if_pos hgas] at hp
      exact absurd hp (List.not_mem_nil p)
    · rw [if_neg hgas] at hp
      obtain ⟨q, hq1, hq2⟩ := List.mem_map.mp hp
      exact hfromDaily q ((mem_sortBy _ _ _).mp hq1) hq2
  | week =>
    rw [getGoalSnapshots_week] at hp
    by_cases hgas : gas.isEmpty
    · rw [if_pos hgas] at hp
      exact absurd hp (List.not_mem_nil p)
    · rw [if_neg hgas] at hp
      obtain ⟨q, hq1, hq2⟩ := List.mem_map.mp hp
      exact hfromDaily q
        (mem_grouped_from_daily _ _ q ((mem_sortBy _ _ _).mp hq1)) hq2
  | month =>
    rw [getGoalSnapshots_month] at hp
    by_cases hgas : gas.isEmpty
    · rw [if_pos hgas] at hp
      exact absurd hp (List.not_mem_nil p)
    · rw [if_neg hgas] at hp
      obtain ⟨q, hq1, hq2⟩ := List.mem_map.mp hp
      exact hfromDaily q
        (mem_grouped_from_daily _ _ q ((mem_sortBy _ _ _).mp hq1)) hq2
  | year =>
    rw [getGoalSnapshots_year] at hp
    by_cases hgas : gas.isEmpty
    · rw [if_pos hgas] at hp
      exact absurd hp (List.not_mem_nil p)
    · rw [if_neg hgas] at hp
      obtain ⟨q, hq1, hq2⟩ := List.mem_map.mp hp
      exact hfromDaily q
        (mem_grouped_from_daily _ _ q ((mem_sortBy _ _ _).mp hq1)) hq2

/-- Witness for C3 at a concrete input: the point of the single row
debt series carries the raw balance sum of its date. -/
theorem c3_goal_series_points_witness :
    ((⟨2024, 1, 15⟩ : Date), (-6500 : ℚ)) ∈ getGoalSnapshots
      [⟨"a1", 100, -6500, some (-8000)⟩]
      [⟨"a1", ⟨2024, 1, 15⟩, -6500⟩] ⟨2024, 1, 1⟩ ⟨2024, 1, 31⟩
      .day .debt_payment
    ∧ ((((⟨2024, 1, 15⟩ : Date), (-6500 : ℚ)) : Date × ℚ).2
        = round2 ((((goalQuery [⟨"a1", 100, -6500, some (-8000)⟩]
            [⟨"a1", ⟨2024, 1, 15⟩, -6500⟩] ⟨2024, 1, 1⟩ ⟨2024, 1, 31⟩).filter
            (fun r => r.snapshot_date
              = (((⟨2024, 1, 15⟩ : Date), (-6500 : ℚ)) : Date × ℚ).1)).map
            (goalContribution .debt_payment
              (goalAllocationMap [⟨"a1", 100, -6500, some (-8000)⟩]))).sum)) := by
  have hmem : ((⟨2024, 1, 15⟩ : Date), (-6500 : ℚ)) ∈ getGoalSnapshots
      [⟨"a1", 100, -6500, some (-8000)⟩]
      [⟨"a1", ⟨2024, 1, 15⟩, -6500⟩] ⟨2024, 1, 1⟩ ⟨2024, 1, 31⟩
      .day .debt_payment := by
    norm_num [getGoalSnapshots, goalDailyTotals, goalAllocationMap, goalQuery,
      goalContribution, sortBy, insertLe, updD, Date.leb, round2,
      (by decide : ¬ (GoalType.debt_payment = GoalType.savings))]
  exact ⟨hmem, c3_goal_series_points
    [⟨"a1", 100, -6500, some (-8000)⟩]
    [⟨"a1", ⟨2024, 1, 15⟩, -6500⟩] ⟨2024, 1, 1⟩ ⟨2024, 1, 31⟩
    .day .debt_payment _ hmem⟩

/-- C3 counterexample: two concrete divergences from the claim.
Debt: for a goal with captured starting balance -8000 and a balance
row of -6500, the daily series point is -6500 (the raw balance) while
the point in time payoff formula gives 1500, so the series does not
apply that formula. Savings, grouped: with two fully allocated
accounts whose last January snapshots fall on different days (1000 on
the 5th, 2000 on the 10th), the per account roll-up of the period
yields balances 1000 and 2000 and the point in time savings formula
applied to them gives 3000, but the monthly series point is 2000: a
grouped point carries the totals of a single date, not the formula
over each account's own per period roll-up. -/
theorem c3_goal_series_counterexample :
    (getGoalSnapshots [⟨"a1", 100, -6500, some (-8000)⟩]
        [⟨"a1", ⟨2024, 1, 15⟩, -6500⟩] ⟨2024, 1, 1⟩ ⟨2024, 1, 31⟩
        .day .debt_payment
        = [((⟨2024, 1, 15⟩ : Date), (-6500 : ℚ))]
      ∧ (computeProgress ⟨.debt_payment, 10000⟩
          [⟨"a1", 100, -6500, some (-8000)⟩]).1 = 1500
      ∧ ((-6500 : ℚ)) ≠ 1500)
    ∧ (getGoalSnapshots [⟨"a", 100, 1000, none⟩, ⟨"b", 100, 2000, none⟩]
        [⟨"a", ⟨2024, 1, 5⟩, 1000⟩, ⟨"b", ⟨2024, 1, 10⟩, 2000⟩]
        ⟨2024, 1, 1⟩ ⟨2024, 1, 31⟩ .month .savings
        = [((⟨2024, 1, 10⟩ : Date), (2000 : ℚ))]
      ∧ (computeProgress ⟨.savings, 10000⟩
          [⟨"a", 100, 1000, none⟩, ⟨"b", 100, 2000, none⟩]).1 = 3000
      ∧ (2000 : ℚ) ≠ 3000) := by
  refine ⟨⟨?_, by norm_num [computeProgress, pyOrQ, round2,
      (by decide : ¬ (GoalType.debt_payment = GoalType.savings))], by norm_num⟩,
    ⟨?_, by norm_num [computeProgress, round2], by norm_num⟩⟩
  · norm_num [getGoalSnapshots, goalDailyTotals, goalAllocationMap, goalQuery,
      goalContribution, sortBy, insertLe, updD, Date.leb, round2,
      (by decide : ¬ (GoalType.debt_payment = GoalType.savings))]
  · rw [getGoalSnapshots_month]
    norm_num [goalDailyTotals, goalAllocationMap, goalQuery, goalContribution,
      goalPeriodKey, sortBy, insertLe, updD, lookupD, alookup, Date.leb, round2,
      (by decide : ¬ (GoalType.savings = GoalType.debt_payment)),
      (by decide : ¬ (("a" : String) = "b")),
      (by decide : ¬ (("b" : String) = "a"))]

/-! ## CategorizationPipeline
Translation of BaseCategorizationService._apply_rules
(src/backend/app/services/categorization_service.py lines 86 to 115):
for each transaction scan the rules in supplied order, matching when
the lowercased match value is a substring of the lowercased transaction
field named by the match field; the first match wins and the scan
stops; matched transactions are collected with their rule, unmatched
ones go to the remainder. -/

/-- Field a rule can match on (the data model restricts match_field to
payee, description and memo). -/
inductive MatchField where
  | payee | transDescription | memo
deriving DecidableEq, Repr

/-- Transaction fields read by rule matching; absent or null fields
read as the empty string (txn.get with empty default, then the
or-expression mapping a falsy value to the empty string). -/
structure CTxn where
  payee : Option String
  transDescription : Option String
  memo : Option String
deriving DecidableEq, Repr

/-- Categorization rule fields read by _apply_rules. -/
structure CRule where
  match_field : MatchField
  match_value : String
  category_id : Option String
  subcategory_id : Option String
deriving DecidableEq, Repr

/-- Value of the transaction field named by the match field, with the
empty string for an absent value. -/
def fieldValue (t : CTxn) (f : MatchField) : String :=
  (match f with
   | .payee => t.payee
   | .transDescription => t.transDescription
   | .memo => t.memo).getD ""

/-- Lowercased character list of a string (Python str.lower on the
ASCII range). -/
def lowerStr (s : String) : List Char :=
  s.toList.map Char.toLower

/-- Substring test on character lists (Python in operator): the needle
is a prefix of some suffix of the haystack. -/
def containsSub (needle : List Char) : List Char → Bool
  | [] => needle.isEmpty
  | c :: t => needle.isPrefixOf (c :: t) || containsSub needle t

/-- A rule matches a transaction when its lowercased match value is a
substring of the lowercased field value (Python in operator on
lowercased strings). -/
def ruleMatches (r : CRule) (t : CTxn) : Bool :=
  containsSub (lowerStr r.match_value)
    (lowerStr (fieldValue t r.match_field))

/-- Inner loop of _apply_rules: the first rule in supplied order that
matches the transaction, stopping the scan at the first hit. -/
def matchedRuleFor (rules : List CRule) (t : CTxn) : Option CRule :=
  match rules with
  | [] => none
  | r :: rest => if ruleMatches r t then some r else matchedRuleFor rest t

/-- Outer loop of _apply_rules: partition the transactions into pairs
of transaction and first matching rule, and the unmatched remainder,
preserving order. -/
def applyRules (txns : List CTxn) (rules : List CRule) :
    List (CTxn × CRule) × List CTxn :=
  txns.foldl (fun acc t =>
    match matchedRuleFor rules t with
    | some r => (acc.1 ++ [(t, r)], acc.2)
    | none => (acc.1, acc.2 ++ [t])) ([], [])

theorem matchedRuleFor_eq_find (rules : List CRule) (t : CTxn) :
    matchedRuleFor rules t = rules.find? (fun r => ruleMatches r t) := by
  induction rules with
  | nil => rfl
  | cons r rest ih =>
    by_cases h : ruleMatches r t <;>
      simp [matchedRuleFor, List.find?_cons, h, ih]

theorem applyRules_go (rules : List CRule) (txns : List CTxn)
    (a : List (CTxn × CRule)) (b : List CTxn) :
    txns.foldl (fun acc t =>
      match matchedRuleFor rules t with
      | some r => (acc.1 ++ [(t, r)], acc.2)
      | none => (acc.1, acc.2 ++ [t])) (a, b)
    = (a ++ txns.filterMap (fun t =>
        (matchedRuleFor rules t).map (fun r => (t, r))),
       b ++ txns.filter (fun t => (matchedRuleFor rules t).isNone)) := by
  induction txns generalizing a b with
  | nil => simp
  | cons h rest ih =>
    rcases hm : matchedRuleFor rules h with _ | r <;>
      simp [List.foldl_cons, hm, ih, List.filterMap_cons, List.filter_cons]

/-- C9. Rule application: the rule assigned to each transaction is the
first rule of the supplied order whose lowercased match value is a
substring of the lowercased value of the field it names (find? on the
supplied list, so later rules are skipped); applyRules partitions the
transactions accordingly, keeping each matched transaction with that
first rule; and for a transaction matching two distinct rules, the two
orderings of the same rules yield different assignments. Source:
categorization_service.py lines 86 to 115. -/
theorem c9_rule_precedence :
    (∀ (rules : List CRule) (t : CTxn),
        matchedRuleFor rules t = rules.find? (fun r => ruleMatches r t))
    ∧ (∀ (txns : List CTxn) (rules : List CRule),
        applyRules txns rules
          = (txns.filterMap (fun t =>
              (matchedRuleFor rules t).map (fun r => (t, r))),
             txns.filter (fun t => (matchedRuleFor rules t).isNone)))
    ∧ (ruleMatches ⟨.payee, "amazon", some "shopping", none⟩
          ⟨some "Amazon Prime Video", none, none⟩ = true
       ∧ ruleMatches ⟨.payee, "prime", some "subscriptions", none⟩
          ⟨some "Amazon Prime Video", none, none⟩ = true
       ∧ (⟨.payee, "amazon", some "shopping", none⟩ : CRule)
          ≠ ⟨.payee, "prime", some "subscriptions", none⟩
       ∧ (applyRules [⟨some "Amazon Prime Video", none, none⟩]
            [⟨.payee, "amazon", some "shopping", none⟩,
             ⟨.payee, "prime", some "subscriptions", none⟩]).1
          = [(⟨some "Amazon Prime Video", none, none⟩,
              ⟨.payee, "amazon", some "shopping", none⟩)]
       ∧ (applyRules [⟨some "Amazon Prime Video", none, none⟩]
            [⟨.payee, "prime", some "subscriptions", none⟩,
             ⟨.payee, "amazon", some "shopping", none⟩]).1
          = [(⟨some "Amazon Prime Video", none, none⟩,
              ⟨.payee, "prime", some "subscriptions", none⟩)]) := by
  refine ⟨matchedRuleFor_eq_find, ?_, by decide, by decide, by decide,
    by decide, by decide⟩
  intro txns rules
  rw [applyRules, applyRules_go]
  simp

/-! ## Snapshot sufficiency gate (modelled from the spec)
The coverage gated variant of SnapshotService.get_snapshots, together
with its InsufficientDataError class, is not present under src: the
router (src/backend/app/routers/snapshots.py line 8) imports
InsufficientDataError from the snapshot service and renders its
message, coverage_pct, min_date and max_date fields, and the test suite
exercises the 422 coverage failure, but the service file in the tree is
an older revision without the gate. The gate is therefore modelled
from spec section 4.4. -/

/-- Payload of the InsufficientData failure: the coverage percentage
and the minimum and maximum dates actually present in the data. -/
structure InsufficientData where
  coverage_pct : ℚ
  min_date : Option Date
  max_date : Option Date
deriving DecidableEq, Repr

/-- Distinct dates present in a daily series. -/
def distinctDates (pts : List (Date × ℚ)) : List Date :=
  (pts.map Prod.fst).dedup

/-- Modelled from the spec: coverage_pct = (distinct dates present /
expected_days_in_range) * 100 with expected_days = (end - start).days
+ 1. -/
def coveragePct (pts : List (Date × ℚ)) (startD endD : Date) : ℚ :=
  ((distinctDates pts).length : ℚ)
    / ((toDays endD - toDays startD + 1 : ℤ) : ℚ) * 100

/-- Earliest date present in the series. -/
def minDateOf (pts : List (Date × ℚ)) : Option Date :=
  pts.foldl (fun acc p =>
    match acc with
    | none => some p.1
    | some d => some (if Date.leb p.1 d then p.1 else d)) none

/-- Latest date present in the series. -/
def maxDateOf (pts : List (Date × ℚ)) : Option Date :=
  pts.foldl (fun acc p =>
    match acc with
    | none => some p.1
    | some d => some (if Date.leb d p.1 then p.1 else d)) none

/-- Modelled from the spec: the sufficiency gated snapshot retrieval
over the in range daily series. When coverage_pct < 50 it fails with
InsufficientData carrying coverage_pct and the min and max dates
actually present (not the requested range), instead of returning the
partial series; otherwise it returns the series for roll-up. -/
def getSnapshotsGated (pts : List (Date × ℚ)) (startD endD : Date) :
    Except InsufficientData (List (Date × ℚ)) :=
  if coveragePct pts startD endD < 50 then
    .error ⟨coveragePct pts startD endD, minDateOf pts, maxDateOf pts⟩
  else .ok pts

/-- C2. Whenever the distinct dates present cover less than 50 percent
of the expected days of the requested range, the retrieval fails with
InsufficientData carrying the coverage percentage and the min and max
dates present, never returning a partial series; and the worked
example of the spec: a 10 day range with data on 4 distinct days has
coverage_pct = 40 and fails accordingly. -/
theorem c2_sufficiency_gate :
    (∀ (pts : List (Date × ℚ)) (startD endD : Date),
        coveragePct pts startD endD < 50 →
        getSnapshotsGated pts startD endD
          = .error ⟨coveragePct pts startD endD, minDateOf pts, maxDateOf pts⟩)
    ∧ (coveragePct
        [(⟨2024, 3, 1⟩, 100), (⟨2024, 3, 2⟩, 100),
         (⟨2024, 3, 3⟩, 100), (⟨2024, 3, 4⟩, 100)]
        ⟨2024, 3, 1⟩ ⟨2024, 3, 10⟩ = 40
      ∧ getSnapshotsGated
          [(⟨2024, 3, 1⟩, 100), (⟨2024, 3, 2⟩, 100),
           (⟨2024, 3, 3⟩, 100), (⟨2024, 3, 4⟩, 100)]
          ⟨2024, 3, 1⟩ ⟨2024, 3, 10⟩
        = .error ⟨40, some ⟨2024, 3, 1⟩, some ⟨2024, 3, 4⟩⟩) := by
  have hgate : ∀ (pts : List (Date × ℚ)) (startD endD : Date),
      coveragePct pts startD endD < 50 →
      getSnapshotsGated pts startD endD
        = .error ⟨coveragePct pts startD endD, minDateOf pts, maxDateOf pts⟩ := by
    intro pts startD endD h
    rw [getSnapshotsGated, if_pos h]
  have hcov : coveragePct
      [(⟨2024, 3, 1⟩, 100), (⟨2024, 3, 2⟩, 100),
       (⟨2024, 3, 3⟩, 100), (⟨2024, 3, 4⟩, 100)]
      ⟨2024, 3, 1⟩ ⟨2024, 3, 10⟩ = 40 := by
    norm_num [coveragePct, distinctDates, toDays, Int.fdiv, List.dedup,
      List.pwFilter]
  refine ⟨hgate, hcov, ?_⟩
  rw [hgate _ _ _ (by rw [hcov]; norm_num), hcov]
  norm_num [minDateOf, maxDateOf, Date.leb]

/-- Witness for C2: the gate theorem applied at the 10 day, 4 day
example. -/
theorem c2_sufficiency_gate_witness :
    coveragePct
      [(⟨2024, 3, 1⟩, 100), (⟨2024, 3, 2⟩, 100),
       (⟨2024, 3, 3⟩, 100), (⟨2024, 3, 4⟩, 100)]
      ⟨2024, 3, 1⟩ ⟨2024, 3, 10⟩ < 50
    ∧ getSnapshotsGated
        [(⟨2024, 3, 1⟩, 100), (⟨2024, 3, 2⟩, 100),
         (⟨2024, 3, 3⟩, 100), (⟨2024, 3, 4⟩, 100)]
        ⟨2024, 3, 1⟩ ⟨2024, 3, 10⟩
      = .error ⟨coveragePct
          [(⟨2024, 3, 1⟩, 100), (⟨2024, 3, 2⟩, 100),
           (⟨2024, 3, 3⟩, 100), (⟨2024, 3, 4⟩, 100)]
          ⟨2024, 3, 1⟩ ⟨2024, 3, 10⟩,
          some ⟨2024, 3, 1⟩, some ⟨2024, 3, 4⟩⟩ := by
  have hcov : coveragePct
      [(⟨2024, 3, 1⟩, 100), (⟨2024, 3, 2⟩, 100),
       (⟨2024, 3, 3⟩, 100), (⟨2024, 3, 4⟩, 100)]
      ⟨2024, 3, 1⟩ ⟨2024, 3, 10⟩ < 50 := by
    norm_num [coveragePct, distinctDates, toDays, Int.fdiv, List.dedup,
      List.pwFilter]
  refine ⟨hcov, ?_⟩
  have h := c2_sufficiency_gate.1
    [(⟨2024, 3, 1⟩, 100), (⟨2024, 3, 2⟩, 100),
     (⟨2024, 3, 3⟩, 100), (⟨2024, 3, 4⟩, 100)]
    ⟨2024, 3, 1⟩ ⟨2024, 3, 10⟩ hcov
  rw [h]
  norm_num [minDateOf, maxDateOf, Date.leb]

end Cashstate
